import Mathlib

/-!
Shallow embedding of `VoxtralServer/server.py` (Voxtral Transcription Server).

The server keeps process-wide globals `model`, `processor`, `device`, all
`None` until `initialize_model` sets them at startup, and exposes four
routes: `GET /` (static text), `GET /health`, `POST /transcribe` and
`POST /transcribe-json`.  The machine-learning library (loading weights,
`apply_transcription_request`, `generate`, `batch_decode`), the upload
`file.read()`, the wall clock and the temp-file write are calls into the
outside world; each is embedded as one field of an environment record that
either returns a value or fails with a message (a raised exception).
The filesystem is embedded as the list of existing temp-file paths.

Handlers are embedded as functions from the global state and the
filesystem to a result, the (possibly updated) global state and the
(possibly updated) filesystem; the Python handlers declare no `global`
names, and accordingly every translated branch hands the state back.
-/

/-- Opaque handle to the loaded Voxtral model (contents irrelevant to the
server's own logic, which only tests it for presence and passes it on). -/
structure Model where
  weights : Nat
deriving DecidableEq, Repr

/-- Opaque handle to the loaded processor. -/
structure Processor where
  vocab : Nat
deriving DecidableEq, Repr

/-- Opaque tensor of prepared inputs returned by
`processor.apply_transcription_request`. -/
structure Inputs where
  payload : Nat
deriving DecidableEq, Repr

/-- Opaque tensor of generated outputs returned by `model.generate`. -/
structure Outputs where
  payload : Nat
deriving DecidableEq, Repr

/-- The process-wide globals of `server.py`: `model`, `processor`,
`device`, each initially `None`. -/
structure ServerState where
  model : Option Model
  processor : Option Processor
  device : Option String
deriving DecidableEq, Repr

/-- The globals at process start: `model = None`, `processor = None`,
`device = None` (lines 45-47 of server.py). -/
def initialState : ServerState :=
  { model := none, processor := none, device := none }

/-- The filesystem, as the list of temp-file paths that currently exist. -/
abbrev FS : Type := List String

/-- Pydantic `TranscriptionResponse`: `text`, `language`,
`processing_time` (a float, embedded as a rational). -/
structure TranscriptionResponse where
  text : String
  language : String
  processing_time : Rat
deriving DecidableEq, Repr

/-- Pydantic `HealthResponse`: `status`, `model_loaded`, `device`,
`gpu_available`. -/
structure HealthResponse where
  status : String
  model_loaded : Bool
  device : String
  gpu_available : Bool
deriving DecidableEq, Repr

/-- Result of a FastAPI handler body: a returned value, or a raised
`HTTPException status_code detail`. -/
inductive HandlerResult (α : Type) where
  | ok : α → HandlerResult α
  | httpError : Nat → String → HandlerResult α
deriving DecidableEq, Repr

/-- A rendered HTTP response whose body is a flat JSON object with string
values (the only shape `/transcribe-json` ever produces). -/
structure HttpResponse where
  status : Nat
  body : List (String × String)
deriving DecidableEq, Repr

/-- Environment of one `/transcribe` request: the route parameters come
separately; this record holds every interaction with the outside world, in
the order the handler performs them.  `startTime`/`endTime` are the two
`time.time()` readings; `readResult` is `await file.read()`; `tempPath` is
the fresh name handed out by `tempfile.NamedTemporaryFile`; `writeResult`
is `temp_file.write(audio_data)`; the remaining fields are the
machine-learning library calls, each able to raise. -/
structure TranscribeEnv where
  startTime : Rat
  endTime : Rat
  readResult : Except String (List Nat)
  tempPath : String
  writeResult : Except String Unit
  applyTranscriptionRequest : Processor → String → String → String → Except String Inputs
  toDevice : Inputs → Except String Inputs
  inputIdsLen : Inputs → Nat
  sliceFrom : Outputs → Nat → Outputs
  generate : Model → Inputs → Except String Outputs
  batchDecode : Processor → Outputs → Except String (List String)

/-- The inner `try` block of `transcribe_audio` (server.py lines 189-229):
prepare the transcription request from the temp file, move it to the
device, generate, decode the slice of the outputs past the input ids, take
the first decoded string stripped of surrounding whitespace (or the empty
string when the decoder returned an empty list), and build the
`TranscriptionResponse` with the elapsed wall-clock time. -/
def transcribe_core (env : TranscribeEnv) (m : Model) (p : Processor)
    (language model_id : String) : Except String TranscriptionResponse :=
  match env.applyTranscriptionRequest p language env.tempPath model_id with
  | .error e => .error e
  | .ok inputs0 =>
    match env.toDevice inputs0 with
    | .error e => .error e
    | .ok inputs =>
      match env.generate m inputs with
      | .error e => .error e
      | .ok outputs =>
        match env.batchDecode p (env.sliceFrom outputs (env.inputIdsLen inputs)) with
        | .error e => .error e
        | .ok decoded =>
          .ok { text := match decoded with
                  | [] => ""
                  | first :: _ => first.trim
              , language := language
              , processing_time := env.endTime - env.startTime }

/-- The `finally` clause (server.py lines 231-234): `if
os.path.exists(temp_file_path): os.unlink(temp_file_path)`. -/
def unlinkTemp (path : String) (fs : FS) : FS :=
  if path ∈ fs then List.erase fs path else fs

/-- Handler of `POST /transcribe` (server.py lines 157-239).  With the
model or the processor absent it raises `HTTPException 503` at once.
Otherwise it reads the upload, stages it to a fresh temp file, runs
`transcribe_core` under a `try/finally` that unlinks the temp file, and
wraps any raised message `e` into `HTTPException 500 ("Transcription
failed: " ++ e)`.  A failure of the staging write itself (inside the
`with` block, before the inner `try` is entered) leaves the created temp
file on disk, exactly as the Python does. -/
def transcribe_audio (env : TranscribeEnv) (language model_id : String)
    (s : ServerState) (fs : FS) :
    HandlerResult TranscriptionResponse × ServerState × FS :=
  match s.model, s.processor with
  | some m, some p =>
    match env.readResult with
    | .error e => (.httpError 500 ("Transcription failed: " ++ e), s, fs)
    | .ok _audio_data =>
      let fsStaged : FS := env.tempPath :: fs
      match env.writeResult with
      | .error e => (.httpError 500 ("Transcription failed: " ++ e), s, fsStaged)
      | .ok _ =>
        let result := transcribe_core env m p language model_id
        let fsCleaned := unlinkTemp env.tempPath fsStaged
        match result with
        | .ok resp => (.ok resp, s, fsCleaned)
        | .error e => (.httpError 500 ("Transcription failed: " ++ e), s, fsCleaned)
  | _, _ => (.httpError 503 "Model not loaded. Please check server logs.", s, fs)

/-- Default of the `language` query parameter of both transcription
routes. -/
def defaultLanguage : String := "en"

/-- Default of the `model_id` query parameter of both transcription
routes. -/
def defaultModelId : String := "mistralai/Voxtral-Mini-3B-2507"

/-- Route dispatch of `POST /transcribe`: FastAPI substitutes the declared
defaults for omitted query parameters before calling the handler. -/
def transcribe_route (env : TranscribeEnv) (language? model_id? : Option String)
    (s : ServerState) (fs : FS) :
    HandlerResult TranscriptionResponse × ServerState × FS :=
  transcribe_audio env (language?.getD defaultLanguage)
    (model_id?.getD defaultModelId) s fs

/-- Handler of `POST /transcribe-json` (server.py lines 241-258).  It
calls `transcribe_audio`; on a returned response it answers `200
{"text": ...}`; a raised `HTTPException` is re-raised (`except
HTTPException: raise`) and rendered by FastAPI's default exception handler
as `{"detail": ...}` with the exception's status code.  The `except
Exception` branch returning `{"error": ...}` with status 500 is reachable
only for a non-HTTPException failure, and `transcribe_audio` signals every
failure as an HTTPException, so that branch has no counterpart here. -/
def transcribe_audio_json (env : TranscribeEnv) (language model_id : String)
    (s : ServerState) (fs : FS) : HttpResponse × ServerState × FS :=
  match transcribe_audio env language model_id s fs with
  | (.ok r, s1, fs1) => ({ status := 200, body := [("text", r.text)] }, s1, fs1)
  | (.httpError code detail, s1, fs1) =>
      ({ status := code, body := [("detail", detail)] }, s1, fs1)

/-- Handler of `GET /health` (server.py lines 143-155): a pure read of the
globals, `status` is `"healthy"` exactly when `model` is present,
`model_loaded` mirrors the same test, `device` falls back to `"unknown"`
when the global is still `None` (`device or "unknown"`). -/
def health_check (gpuAvailable : Bool) (s : ServerState) (fs : FS) :
    HealthResponse × ServerState × FS :=
  ({ status := if s.model.isSome then "healthy" else "unhealthy"
   , model_loaded := s.model.isSome
   , device := s.device.getD "unknown"
   , gpu_available := gpuAvailable }, s, fs)

/-- Static body of `GET /` (server.py lines 131-141). -/
def rootText : String :=
  "Voxtral Transcription Server v1.0.0\n\nEndpoints:\n- GET  /health          - Health check\n- POST /transcribe     - Transcribe audio (WAV file)\n- GET  /docs           - API documentation\n\nSend POST requests to /transcribe with WAV audio data for transcription."

/-- Handler of `GET /` (server.py lines 131-141): returns the static
banner, touches nothing. -/
def root (s : ServerState) (fs : FS) : String × ServerState × FS :=
  (rootText, s, fs)

/-- Environment of `initialize_model`: CUDA availability, and the two
fallible library loads (`AutoProcessor.from_pretrained`,
`VoxtralForConditionalGeneration.from_pretrained`). -/
structure InitEnv where
  cudaAvailable : Bool
  loadProcessor : Except String Processor
  loadModel : Except String Model

/-- `initialize_model` (server.py lines 83-118): records the device, then
loads the processor, then the model, writing each global as soon as it is
obtained; any raised failure is caught and turned into a returned `False`,
leaving the globals written so far in place (so a mid-way failure leaves
`processor` set but `model` still `None`). -/
def initialize_model (env : InitEnv) (s : ServerState) : Bool × ServerState :=
  let dev := if env.cudaAvailable then "cuda" else "cpu"
  let s1 := { s with device := some dev }
  match env.loadProcessor with
  | .error _ => (false, s1)
  | .ok p =>
    let s2 := { s1 with processor := some p }
    match env.loadModel with
    | .error _ => (false, s2)
    | .ok m => (true, { s2 with model := some m })

/-- `startup_event` (server.py lines 120-129): calls `initialize_model`;
a `False` return is only logged — the function still returns normally
(the process keeps running), with whatever globals initialization left. -/
def startup_event (env : InitEnv) (s : ServerState) : ServerState :=
  (initialize_model env s).2

/-- The `/transcribe` handler viewed as one exception pipeline: the
sequence of fallible outside calls it makes once the handle is present
(`file.read()`, the temp-file write, then the inner pipeline).  Used to
state that the handler maps exactly this pipeline's outcome to its
response. -/
def transcribe_except (env : TranscribeEnv) (m : Model) (p : Processor)
    (language model_id : String) : Except String TranscriptionResponse :=
  match env.readResult with
  | .error e => .error e
  | .ok _ =>
    match env.writeResult with
    | .error e => .error e
    | .ok _ => transcribe_core env m p language model_id

/-- Globals with model and processor loaded, as left by a successful
`initialize_model` on a CUDA machine. -/
def loadedState : ServerState :=
  { model := some { weights := 0 }
  , processor := some { vocab := 0 }
  , device := some "cuda" }

/-- A request environment in which every outside call succeeds: the upload
reads three bytes, staging works, and the decoder returns one string with
surrounding whitespace. -/
def sampleEnv : TranscribeEnv :=
  { startTime := 0
  , endTime := 2
  , readResult := .ok [1, 2, 3]
  , tempPath := "/tmp/sample.wav"
  , writeResult := .ok ()
  , applyTranscriptionRequest := fun _ _ _ _ => .ok { payload := 1 }
  , toDevice := fun i => .ok i
  , inputIdsLen := fun _ => 4
  , sliceFrom := fun o _ => o
  , generate := fun _ _ => .ok { payload := 7 }
  , batchDecode := fun _ _ => .ok ["  hello world  "] }

/-- A request environment whose generation step raises. -/
def genFailEnv : TranscribeEnv :=
  { sampleEnv with generate := fun _ _ => .error "CUDA out of memory" }

/-- A request environment whose decoder returns an empty list. -/
def emptyDecodeEnv : TranscribeEnv :=
  { sampleEnv with batchDecode := fun _ _ => .ok [] }

/-- An initialization environment in which the processor loads but the
model load raises, leaving initialization partial. -/
def failInitEnv : InitEnv :=
  { cudaAvailable := true
  , loadProcessor := .ok { vocab := 0 }
  , loadModel := .error "out of memory" }

/-! Helper lemmas shared by the claim theorems. -/

/-- Any `/transcribe` call that does not observe both the model and the
processor answers the 503 error with nothing touched. -/
theorem transcribe_missing_503 (env : TranscribeEnv) (language model_id : String)
    (s : ServerState) (fs : FS) (h : s.model = none ∨ s.processor = none) :
    transcribe_audio env language model_id s fs =
      (.httpError 503 "Model not loaded. Please check server logs.", s, fs) := by
  rcases hm : s.model with _ | m
  · simp [transcribe_audio, hm]
  · rcases hp : s.processor with _ | p
    · simp [transcribe_audio, hm, hp]
    · rcases h with h | h
      · rw [hm] at h; exact absurd h (by simp)
      · rw [hp] at h; exact absurd h (by simp)

/-- The state component of the `/transcribe` handler's result is the state
it was given: the handler declares no `global` and writes none. -/
theorem transcribe_state_eq (env : TranscribeEnv) (language model_id : String)
    (s : ServerState) (fs : FS) :
    (transcribe_audio env language model_id s fs).2.1 = s := by
  rcases hm : s.model with _ | m <;> rcases hp : s.processor with _ | p <;>
    simp [transcribe_audio, hm, hp]
  rcases hr : env.readResult with e | a <;> simp [hr]
  rcases hw : env.writeResult with e | u <;> simp [hw]
  rcases hc : transcribe_core env m p language model_id with e | r <;> simp [hc]

/-- A failed `initialize_model` run from the fresh process state leaves the
`model` global absent. -/
theorem initialize_model_fail_model_none (env : InitEnv)
    (h : (initialize_model env initialState).1 = false) :
    (initialize_model env initialState).2.model = none := by
  unfold initialize_model at h ⊢
  rcases hp : env.loadProcessor with e | p <;> simp [hp, initialState] at h ⊢
  rcases hl : env.loadModel with e | m <;> simp [hl, initialState] at h ⊢

/-- A response produced by a successful inner pipeline echoes the request
language and reports the elapsed wall-clock span. -/
theorem transcribe_core_ok_shape (env : TranscribeEnv) (m : Model) (p : Processor)
    (language model_id : String) (r : TranscriptionResponse)
    (h : transcribe_core env m p language model_id = .ok r) :
    r.language = language ∧ r.processing_time = env.endTime - env.startTime := by
  rcases ha : env.applyTranscriptionRequest p language env.tempPath model_id with e | i0 <;>
    simp [transcribe_core, ha] at h
  rcases hd : env.toDevice i0 with e | i1 <;> simp [hd] at h
  rcases hg : env.generate m i1 with e | o <;> simp [hg] at h
  rcases hb : env.batchDecode p (env.sliceFrom o (env.inputIdsLen i1)) with e | dec <;>
    simp [hb] at h
  subst h
  exact ⟨rfl, rfl⟩

/-- A `/transcribe` call that returns a response did so with both handles
present and the inner pipeline succeeding on that very response. -/
theorem transcribe_audio_ok_inv (env : TranscribeEnv) (language model_id : String)
    (s : ServerState) (fs : FS) (r : TranscriptionResponse) (s' : ServerState) (fs' : FS)
    (h : transcribe_audio env language model_id s fs = (.ok r, s', fs')) :
    ∃ m p, s.model = some m ∧ s.processor = some p ∧
      transcribe_core env m p language model_id = .ok r := by
  rcases hm : s.model with _ | m <;> rcases hp : s.processor with _ | p <;>
    simp [transcribe_audio, hm, hp] at h
  refine ⟨m, p, rfl, rfl, ?_⟩
  rcases hr : env.readResult with e | a <;> simp [hr] at h
  rcases hw : env.writeResult with e | u <;> simp [hw] at h
  rcases hc : transcribe_core env m p language model_id with e | r0 <;> simp [hc] at h
  rw [h.1]

/-- With the handle present, the `/transcribe` response is exactly the
image of the outside-call pipeline: the returned response on success, and
`HTTPException 500` with the prefixed underlying message on any raise. -/
theorem transcribe_pipeline_response (env : TranscribeEnv)
    (language model_id : String) (m : Model) (p : Processor)
    (s : ServerState) (fs : FS)
    (hm : s.model = some m) (hp : s.processor = some p) :
    (transcribe_audio env language model_id s fs).1 =
      match transcribe_except env m p language model_id with
      | .ok r => .ok r
      | .error e => .httpError 500 ("Transcription failed: " ++ e) := by
  rcases hr : env.readResult with e | a <;>
    simp [transcribe_audio, transcribe_except, hm, hp, hr]
  rcases hw : env.writeResult with e | u <;> simp [hw]
  rcases hc : transcribe_core env m p language model_id with e | r <;> simp [hc]

/-! Claim theorems. -/

/-- C4: for every process state, `GET /health` reports `model_loaded`
exactly when the model handle is present, `status` is `"healthy"` when it
is and `"unhealthy"` when it is not, and `status = "healthy"` holds if and
only if `model_loaded` is true. -/
theorem health_status_iff_model_loaded (gpu : Bool) (s : ServerState) (fs : FS) :
    ((health_check gpu s fs).1.model_loaded = s.model.isSome) ∧
    ((health_check gpu s fs).1.status =
      if s.model.isSome then "healthy" else "unhealthy") ∧
    ((health_check gpu s fs).1.status = "healthy" ↔
      (health_check gpu s fs).1.model_loaded = true) := by
  refine ⟨rfl, rfl, ?_⟩
  rcases hm : s.model with _ | m <;> simp [health_check, hm]

/-- C9: `health()` has no side effects — it hands back the state and the
filesystem untouched — and (being a total function of the in-memory state)
never fails; when no device has been recorded it reports the device as
`"unknown"`. -/
theorem health_no_side_effects (gpu : Bool) (s : ServerState) (fs : FS) :
    ((health_check gpu s fs).2.1 = s) ∧ ((health_check gpu s fs).2.2 = fs) ∧
    (s.device = none → (health_check gpu s fs).1.device = "unknown") := by
  refine ⟨rfl, rfl, fun h => ?_⟩
  simp [health_check, h]

/-- Witness for C9 at the fresh process state, whose device is `none`. -/
theorem health_no_side_effects_witness :
    ((health_check true initialState []).2.1 = initialState) ∧
    ((health_check true initialState []).2.2 = ([] : FS)) ∧
    ((health_check true initialState []).1.device = "unknown") :=
  ⟨(health_no_side_effects true initialState []).1,
   (health_no_side_effects true initialState []).2.1,
   (health_no_side_effects true initialState []).2.2 rfl⟩

/-- C8: no request handler mutates the process-wide handle state — for
`/transcribe`, `/transcribe-json`, `/health` and `/`, on success and on
failure alike, the state after the call is the state before it. -/
theorem handlers_preserve_handle_state (env : TranscribeEnv) (gpu : Bool)
    (language model_id : String) (s : ServerState) (fs : FS) :
    ((transcribe_audio env language model_id s fs).2.1 = s) ∧
    ((transcribe_audio_json env language model_id s fs).2.1 = s) ∧
    ((health_check gpu s fs).2.1 = s) ∧
    ((root s fs).2.1 = s) := by
  refine ⟨transcribe_state_eq env language model_id s fs, ?_, rfl, rfl⟩
  have h := transcribe_state_eq env language model_id s fs
  rcases ht : transcribe_audio env language model_id s fs with ⟨res, s1, fs1⟩
  rw [ht] at h
  rcases res with r | ⟨c, d⟩ <;>
    (unfold transcribe_audio_json; rw [ht]; exact h)

/-- C7: a failed startup initialization is non-fatal — `startup_event`
still returns (the process keeps running), the model handle stays absent,
and a subsequent `GET /health` reports the unhealthy, not-loaded state. -/
theorem startup_failure_nonfatal (env : InitEnv) (gpu : Bool)
    (h : (initialize_model env initialState).1 = false) :
    ((startup_event env initialState).model = none) ∧
    ((health_check gpu (startup_event env initialState) []).1.status = "unhealthy") ∧
    ((health_check gpu (startup_event env initialState) []).1.model_loaded = false) := by
  have hm : (startup_event env initialState).model = none :=
    initialize_model_fail_model_none env h
  refine ⟨hm, ?_, ?_⟩ <;> simp [health_check, hm]

/-- Witness for C7: an initialization whose model load raises. -/
theorem startup_failure_nonfatal_witness :
    ((startup_event failInitEnv initialState).model = none) ∧
    ((health_check true (startup_event failInitEnv initialState) []).1.status = "unhealthy") ∧
    ((health_check true (startup_event failInitEnv initialState) []).1.model_loaded = false) :=
  startup_failure_nonfatal failInitEnv true rfl

/-- C2: a `/transcribe` call either observes both the model and the
processor, or fails at once with the 503 error, touching neither the state
nor the filesystem; with both present the 503 error can no longer arise
(any raised error is a 500).  In particular the partial state left by an
`initialize_model` run that failed midway (processor loaded, model absent)
is answered with 503, never used for transcription. -/
theorem transcribe_full_handle_or_503 (env : TranscribeEnv)
    (language model_id : String) (s : ServerState) (fs : FS) :
    ((s.model = none ∨ s.processor = none) →
      transcribe_audio env language model_id s fs =
        (.httpError 503 "Model not loaded. Please check server logs.", s, fs)) ∧
    (∀ c d, s.model ≠ none → s.processor ≠ none →
      (transcribe_audio env language model_id s fs).1 = .httpError c d → c = 500) ∧
    (∀ ienv : InitEnv, (initialize_model ienv initialState).1 = false →
      transcribe_audio env language model_id (startup_event ienv initialState) fs =
        (.httpError 503 "Model not loaded. Please check server logs.",
          startup_event ienv initialState, fs)) := by
  refine ⟨transcribe_missing_503 env language model_id s fs, ?_, ?_⟩
  · intro c d hm hp hres
    rcases hM : s.model with _ | m
    · exact absurd hM hm
    rcases hP : s.processor with _ | p
    · exact absurd hP hp
    rcases hr : env.readResult with e | a <;>
      simp [transcribe_audio, hM, hP, hr] at hres
    · exact hres.1.symm
    rcases hw : env.writeResult with e | u <;> simp [hw] at hres
    · exact hres.1.symm
    rcases hc : transcribe_core env m p language model_id with e | r <;>
      simp [hc] at hres
    exact hres.1.symm
  · intro ienv hfail
    exact transcribe_missing_503 env language model_id _ fs
      (Or.inl (initialize_model_fail_model_none ienv hfail))

/-- Witness for C2 at a state with no model loaded. -/
theorem transcribe_full_handle_or_503_witness :
    transcribe_audio sampleEnv "en" defaultModelId initialState [] =
      (.httpError 503 "Model not loaded. Please check server logs.", initialState, []) :=
  (transcribe_full_handle_or_503 sampleEnv "en" defaultModelId initialState []).1
    (Or.inl rfl)

/-- C3: a `/transcribe` request that reaches the staging step — the upload
read and the temp-file write both completed — leaves the filesystem as it
found it: the fresh temp file is unlinked on the success path and on every
path where a machine-learning call raised. -/
theorem transcribe_temp_file_cleanup (env : TranscribeEnv)
    (language model_id : String) (s : ServerState) (fs : FS)
    (hw : env.writeResult = .ok ()) (hfresh : env.tempPath ∉ fs) :
    ((transcribe_audio env language model_id s fs).2.2 = fs) ∧
    (env.tempPath ∉ (transcribe_audio env language model_id s fs).2.2) := by
  have hclean : unlinkTemp env.tempPath (env.tempPath :: fs) = fs := by
    simp [unlinkTemp]
  rcases hm : s.model with _ | m
  · exact ⟨by simp [transcribe_audio, hm], by simp [transcribe_audio, hm]; exact hfresh⟩
  rcases hp : s.processor with _ | p
  · exact ⟨by simp [transcribe_audio, hm, hp], by simp [transcribe_audio, hm, hp]; exact hfresh⟩
  rcases hr : env.readResult with e | a
  · exact ⟨by simp [transcribe_audio, hm, hp, hr],
      by simp [transcribe_audio, hm, hp, hr]; exact hfresh⟩
  rcases hc : transcribe_core env m p language model_id with e | r <;>
    refine ⟨?_, ?_⟩ <;> simp [transcribe_audio, hm, hp, hr, hw, hc, hclean] <;>
      exact hfresh

/-- Witness for C3: a fully successful request over an empty filesystem. -/
theorem transcribe_temp_file_cleanup_witness :
    ((transcribe_audio sampleEnv "en" defaultModelId loadedState []).2.2 = ([] : FS)) ∧
    (sampleEnv.tempPath ∉ (transcribe_audio sampleEnv "en" defaultModelId loadedState []).2.2) :=
  transcribe_temp_file_cleanup sampleEnv "en" defaultModelId loadedState [] rfl
    (by simp)

/-- C5: under a monotone wall clock, every `/transcribe` request that
returns HTTP 200 echoes the request's language — the declared default
`"en"` when the parameter was omitted — and reports a non-negative
`processing_time`. -/
theorem transcribe_success_echoes_language (env : TranscribeEnv)
    (language? model_id? : Option String) (s : ServerState) (fs : FS)
    (r : TranscriptionResponse) (s' : ServerState) (fs' : FS)
    (hclock : env.startTime ≤ env.endTime)
    (h : transcribe_route env language? model_id? s fs = (.ok r, s', fs')) :
    (r.language = language?.getD "en") ∧ (0 ≤ r.processing_time) := by
  obtain ⟨m, p, _, _, hcore⟩ :=
    transcribe_audio_ok_inv env (language?.getD defaultLanguage)
      (model_id?.getD defaultModelId) s fs r s' fs' h
  obtain ⟨hlang, htime⟩ :=
    transcribe_core_ok_shape env m p (language?.getD defaultLanguage)
      (model_id?.getD defaultModelId) r hcore
  exact ⟨hlang, by rw [htime]; exact sub_nonneg.mpr hclock⟩

/-- Witness for C5: a fully successful request with the language parameter
omitted. -/
theorem transcribe_success_echoes_language_witness :
    (({ text := "", language := "en", processing_time := 2 - 0 } :
        TranscriptionResponse).language = Option.getD none "en") ∧
    ((0 : Rat) ≤ ({ text := "", language := "en", processing_time := 2 - 0 } :
        TranscriptionResponse).processing_time) :=
  transcribe_success_echoes_language emptyDecodeEnv none none loadedState []
    { text := "", language := "en", processing_time := 2 - 0 }
    loadedState [] (by norm_num [sampleEnv, emptyDecodeEnv]) rfl

/-- C6: with the handle present, the `/transcribe` handler's response is
exactly the image of its outside-call pipeline: a returned
`TranscriptionResponse` when every call succeeds, and `HTTPException 500`
carrying `"Transcription failed: "` followed by the underlying message
when any call raises — no error is swallowed, and the handler (a total
function here) never brings the process down. -/
theorem transcribe_error_surfaced (env : TranscribeEnv)
    (language model_id : String) (m : Model) (p : Processor)
    (s : ServerState) (fs : FS)
    (hm : s.model = some m) (hp : s.processor = some p) :
    (transcribe_audio env language model_id s fs).1 =
      match transcribe_except env m p language model_id with
      | .ok r => .ok r
      | .error e => .httpError 500 ("Transcription failed: " ++ e) :=
  transcribe_pipeline_response env language model_id m p s fs hm hp

/-- Witness for C6: a request whose generation step raises is answered
with 500 and the underlying message. -/
theorem transcribe_error_surfaced_witness :
    (transcribe_audio genFailEnv "en" defaultModelId loadedState []).1 =
      .httpError 500 ("Transcription failed: " ++ "CUDA out of memory") :=
  transcribe_error_surfaced genFailEnv "en" defaultModelId
    { weights := 0 } { vocab := 0 } loadedState [] rfl rfl

/-- C10: on a successful request the returned `text` is the first decoded
string with surrounding whitespace stripped, and a decoder that returns an
empty list still yields a successful response whose `text` is empty. -/
theorem transcribe_text_from_decoder (env : TranscribeEnv)
    (language model_id : String) (m : Model) (p : Processor)
    (s : ServerState) (fs : FS) (audio : List Nat)
    (i0 i1 : Inputs) (o : Outputs) (d : List String)
    (hm : s.model = some m) (hp : s.processor = some p)
    (hr : env.readResult = .ok audio) (hw : env.writeResult = .ok ())
    (ha : env.applyTranscriptionRequest p language env.tempPath model_id = .ok i0)
    (hd : env.toDevice i0 = .ok i1)
    (hg : env.generate m i1 = .ok o)
    (hb : env.batchDecode p (env.sliceFrom o (env.inputIdsLen i1)) = .ok d) :
    (transcribe_audio env language model_id s fs).1 =
      .ok { text := match d with
              | [] => ""
              | first :: _ => first.trim
          , language := language
          , processing_time := env.endTime - env.startTime } := by
  simp [transcribe_audio, transcribe_core, hm, hp, hr, hw, ha, hd, hg, hb]
  cases d <;> rfl

/-- Witness for C10: a request whose decoder returns the empty list still
succeeds, with empty text. -/
theorem transcribe_text_from_decoder_witness :
    (transcribe_audio emptyDecodeEnv "en" defaultModelId loadedState []).1 =
      .ok { text := "", language := "en"
          , processing_time := emptyDecodeEnv.endTime - emptyDecodeEnv.startTime } :=
  transcribe_text_from_decoder emptyDecodeEnv "en" defaultModelId
    { weights := 0 } { vocab := 0 } loadedState [] [1, 2, 3]
    { payload := 1 } { payload := 1 } { payload := 7 } []
    rfl rfl rfl rfl rfl rfl rfl rfl

/-- C1, counterexample: with no model loaded, `/transcribe-json` re-raises
the 503 `HTTPException`, whose rendered body keys on `"detail"` — not the
`{"error": ...}` object the claim promises for every error. -/
theorem transcribe_json_error_body_counterexample :
    ((transcribe_audio_json sampleEnv "en" defaultModelId initialState []).1.status = 503) ∧
    ((transcribe_audio_json sampleEnv "en" defaultModelId initialState []).1.body =
      [("detail", "Model not loaded. Please check server logs.")]) ∧
    ((transcribe_audio_json sampleEnv "en" defaultModelId initialState []).1.body.map
      Prod.fst ≠ ["error"]) :=
  ⟨rfl, rfl, by decide⟩

/-- C1, amended: `/transcribe-json` on a successful transcription answers
exactly 200 with exactly `{"text": <the transcript>}`; on any error it
answers the non-200 status matching the failure kind — 503 with no model
loaded, 500 with the prefixed underlying message when the pipeline raises
— but the body is the re-raised `HTTPException`'s rendering
`{"detail": <the message>}`, not `{"error": <message>}`. -/
theorem transcribe_json_response_shape (env : TranscribeEnv)
    (language model_id : String) (s : ServerState) (fs : FS) :
    ((s.model = none ∨ s.processor = none) →
      (transcribe_audio_json env language model_id s fs).1 =
        { status := 503
        , body := [("detail", "Model not loaded. Please check server logs.")] }) ∧
    (∀ m p r, s.model = some m → s.processor = some p →
      transcribe_except env m p language model_id = .ok r →
      (transcribe_audio_json env language model_id s fs).1 =
        { status := 200, body := [("text", r.text)] }) ∧
    (∀ m p e, s.model = some m → s.processor = some p →
      transcribe_except env m p language model_id = .error e →
      (transcribe_audio_json env language model_id s fs).1 =
        { status := 500, body := [("detail", "Transcription failed: " ++ e)] }) := by
  refine ⟨?_, ?_, ?_⟩
  · intro h
    have h503 := transcribe_missing_503 env language model_id s fs h
    simp [transcribe_audio_json, h503]
  · intro m p r hm hp hok
    have hmap := transcribe_pipeline_response env language model_id m p s fs hm hp
    rw [hok] at hmap
    rcases ht : transcribe_audio env language model_id s fs with ⟨res, s1, fs1⟩
    rw [ht] at hmap
    simp at hmap
    subst hmap
    simp [transcribe_audio_json, ht]
  · intro m p e hm hp herr
    have hmap := transcribe_pipeline_response env language model_id m p s fs hm hp
    rw [herr] at hmap
    rcases ht : transcribe_audio env language model_id s fs with ⟨res, s1, fs1⟩
    rw [ht] at hmap
    simp at hmap
    subst hmap
    simp [transcribe_audio_json, ht]

/-- Witness for C1's amended theorem: a concrete request whose pipeline
succeeds (its decoder returns the empty list) is answered 200 with exactly
the transcript body. -/
theorem transcribe_json_response_shape_witness :
    (transcribe_audio_json emptyDecodeEnv "en" defaultModelId loadedState []).1 =
      { status := 200, body := [("text", "")] } :=
  (transcribe_json_response_shape emptyDecodeEnv "en" defaultModelId loadedState []).2.1
    { weights := 0 } { vocab := 0 }
    { text := "", language := "en", processing_time := 2 - 0 } rfl rfl rfl
